import Mathlib

/-!
Verification of the `shuque/zoneinfo` repository, whose sole source file is
`setup.py`, a distutils packaging descriptor.  We embed the module shallowly:
the keyword arguments of the single `setup(...)` call become a record, the
module body becomes a list of Python statements, and execution becomes an
executable interpreter that is parameterised by the command line, the
environment, and an oracle for the imported `distutils.core.setup` function
(which may raise, modelled as `Except`).
-/

namespace ZoneinfoSetup

/-- The keyword arguments of a `distutils.core.setup(...)` call, restricted to
the keywords that appear in `setup.py`. -/
structure SetupArgs where
  name : String
  version : String
  scripts : List String
  description : String
  author : String
  author_email : String
  url : String
  long_description : String
  deriving Repr, DecidableEq

/-- The exact keyword arguments of the `setup(...)` call on lines 3-13 of
`setup.py`. -/
def setupCall : SetupArgs :=
  { name := "zoneinfo"
  , version := "0.1"
  , scripts := ["zoneinfo"]
  , description := "Query DNS zone information"
  , author := "Shumon Huque"
  , author_email := "shuque@upenn.edu"
  , url := "http://www.huque.com/software/zoneinfo/"
  , long_description :=
      "zoneinfo is a python program to obtain some information about a DNS zone." }

/-- The 13 lines of `setup.py`, verbatim (the file ends without a trailing
newline, so the closing parenthesis line is the 13th and last line). -/
def sourceLines : List String :=
  [ "from distutils.core import setup"
  , ""
  , "setup(name=\x27zoneinfo\x27,"
  , "      version=\x270.1\x27,"
  , "      scripts=[\x27zoneinfo\x27],"
  , "      description=\x27Query DNS zone information\x27,"
  , "      author=\x27Shumon Huque\x27,"
  , "      author_email=\x27shuque@upenn.edu\x27,"
  , "      url=\x27http://www.huque.com/software/zoneinfo/\x27,"
  , ""
  , "      long_description = \\"
  , "      \"\"\"zoneinfo is a python program to obtain some information about a DNS zone.\"\"\","
  , "      )" ]

/-- Python module-level statement forms relevant to `setup.py`: a
`from M import n1, ...` statement, an expression statement calling `setup`,
an assignment, a function definition, a class definition, and a one-statement
`try/except` block.  Only the first two forms occur in the module. -/
inductive Stmt where
  | importFrom (module : String) (names : List String)
  | exprSetupCall (args : SetupArgs)
  | assign (target : String)
  | defFun (fname : String)
  | defClass (cname : String)
  | tryExcept (body : Stmt) (handler : Stmt)
  deriving Repr, DecidableEq

/-- The statements of `setup.py` in order: the import on line 1 and the single
`setup(...)` call spanning lines 3-13. -/
def moduleStmts : List Stmt :=
  [ Stmt.importFrom "distutils.core" ["setup"]
  , Stmt.exprSetupCall setupCall ]

/-- Observable effects of executing a statement: binding a module-level name,
or invoking `setup` with a record of arguments. -/
inductive Effect where
  | bind (n : String)
  | callSetup (args : SetupArgs)
  deriving Repr, DecidableEq

/-- Execute one statement given an oracle `impl` for the imported `setup`
function; an `Except.error` models a raised Python exception.  A `try/except`
block is the only form that can intercept an exception. -/
def execStmt (impl : SetupArgs → Except String Unit) : Stmt → Except String (List Effect)
  | Stmt.importFrom _ ns => Except.ok (ns.map Effect.bind)
  | Stmt.exprSetupCall a =>
      match impl a with
      | Except.error e => Except.error e
      | Except.ok _ => Except.ok [Effect.callSetup a]
  | Stmt.assign t => Except.ok [Effect.bind t]
  | Stmt.defFun n => Except.ok [Effect.bind n]
  | Stmt.defClass n => Except.ok [Effect.bind n]
  | Stmt.tryExcept body handler =>
      match execStmt impl body with
      | Except.error _ => execStmt impl handler
      | Except.ok es => Except.ok es

/-- Execute a list of statements in order; an uncaught exception aborts the
rest of the module and propagates unchanged. -/
def execStmts (impl : SetupArgs → Except String Unit) : List Stmt → Except String (List Effect)
  | [] => Except.ok []
  | s :: rest =>
      match execStmt impl s with
      | Except.error e => Except.error e
      | Except.ok es =>
          match execStmts impl rest with
          | Except.error e => Except.error e
          | Except.ok es2 => Except.ok (es ++ es2)

/-- Executing the module.  The interpreter receives the process command line
`argv` and environment `env`; `setup.py` contains no reference to either
(no flag parsing, no `sys.argv`, no `os.environ`), so they are not consulted
by any statement of `moduleStmts`. -/
def runModule (_argv : List String) (_env : List (String × String))
    (impl : SetupArgs → Except String Unit) : Except String (List Effect) :=
  execStmts impl moduleStmts

/-- A setup oracle that always succeeds; `defaultRun` is the module execution
in the normal (non-raising) case. -/
def implOk : SetupArgs → Except String Unit := fun _ => Except.ok ()

/-- Module execution when `setup` succeeds. -/
def defaultRun : Except String (List Effect) := runModule [] [] implOk

/-- The argument records passed to `setup` during an execution trace. -/
def setupArgsOf : List Effect → List SetupArgs
  | [] => []
  | Effect.callSetup a :: r => a :: setupArgsOf r
  | Effect.bind _ :: r => setupArgsOf r

/-- The module-level names bound during an execution trace. -/
def boundNamesOf : List Effect → List String
  | [] => []
  | Effect.bind n :: r => n :: boundNamesOf r
  | Effect.callSetup _ :: r => boundNamesOf r

/-- Whether an effect is a `setup` invocation. -/
def isCallEffect : Effect → Bool
  | Effect.callSetup _ => true
  | Effect.bind _ => false

/-- Whether a statement is a function or class definition. -/
def isDefStmt : Stmt → Bool
  | Stmt.defFun _ => true
  | Stmt.defClass _ => true
  | _ => false

/-- Whether a statement is an assignment (creation of module-level state). -/
def isAssignStmt : Stmt → Bool
  | Stmt.assign _ => true
  | _ => false

/-- Whether a statement contains an exception handler. -/
def hasHandler : Stmt → Bool
  | Stmt.tryExcept _ _ => true
  | _ => false

/-- Evaluation cost of a statement: one step, plus the steps of the
sub-statements of a `try/except` block. -/
def stmtSteps : Stmt → Nat
  | Stmt.tryExcept b h => 1 + stmtSteps b + stmtSteps h
  | _ => 1

/-- Total evaluation cost of a statement list. -/
def stepsOfList (l : List Stmt) : Nat := (l.map stmtSteps).sum

/-- C1: the `scripts` argument passed to `setup` is a list of length one whose
sole element is the string "zoneinfo", so exactly one executable script named
`zoneinfo` is declared for installation. -/
theorem C1_single_script :
    setupCall.scripts = ["zoneinfo"] ∧ setupCall.scripts.length = 1 := by
  constructor <;> rfl

/-- C2: the distributable unit declared by the `setup` call is named
"zoneinfo" with version "0.1". -/
theorem C2_name_version :
    setupCall.name = "zoneinfo" ∧ setupCall.version = "0.1" := by
  constructor <;> rfl

/-- C3: the one-line description declared in the `setup` call is exactly the
string "Query DNS zone information". -/
theorem C3_description :
    setupCall.description = "Query DNS zone information" := rfl

/-- C4: the source file consists of 13 lines, the module defines no function
and no class, and executing it (under a succeeding `setup`) performs exactly
one action: a single call to `setup` with the fixed keyword arguments
`setupCall`. -/
theorem C4_only_packaging :
    sourceLines.length = 13
      ∧ moduleStmts.all (fun s => !(isDefStmt s)) = true
      ∧ defaultRun = Except.ok [Effect.bind "setup", Effect.callSetup setupCall]
      ∧ [Effect.bind "setup", Effect.callSetup setupCall].filter isCallEffect
          = [Effect.callSetup setupCall] := by
  refine ⟨rfl, rfl, rfl, rfl⟩

/-- C5: the module reads no command-line flags and no environment variables:
for any two executions of the module under different command lines and
environments (and the same `setup` implementation), the outcomes, and in
particular the argument records passed to `setup`, are identical. -/
theorem C5_input_independent
    (argv1 : List String) (env1 : List (String × String))
    (argv2 : List String) (env2 : List (String × String))
    (impl : SetupArgs → Except String Unit) :
    runModule argv1 env1 impl = runModule argv2 env2 impl := rfl

/-- C5 witness: two concrete executions with different command lines and
environments coincide. -/
theorem C5_input_independent_witness :
    runModule ["--verbose"] [] implOk = runModule [] [("HOME", "/tmp")] implOk :=
  C5_input_independent ["--verbose"] [] [] [("HOME", "/tmp")] implOk

/-- C6: no statement of the module contains an exception handler, and any
exception raised by the `setup` call propagates unchanged out of the module:
no alternative result is produced. -/
theorem C6_no_handler_propagates :
    (moduleStmts.all fun s => !(hasHandler s)) = true
      ∧ ∀ (impl : SetupArgs → Except String Unit) (e : String),
          impl setupCall = Except.error e →
          ∀ (argv : List String) (env : List (String × String)),
            runModule argv env impl = Except.error e := by
  refine ⟨rfl, ?_⟩
  intro impl e h argv env
  simp [runModule, execStmts, moduleStmts, execStmt, h]

/-- C6 witness: a `setup` implementation that raises the exception "boom"
makes the whole module raise exactly "boom". -/
theorem C6_no_handler_propagates_witness :
    runModule [] [] (fun _ => Except.error "boom") = Except.error "boom" :=
  C6_no_handler_propagates.2 (fun _ => Except.error "boom") "boom" rfl [] []

/-- C7: the module contains no assignment statement (hence creates no
module-level mutable state), and the only module-level name bound by
execution is the imported `setup`; the only other effect is the single
`setup` call. -/
theorem C7_no_state :
    (moduleStmts.all fun s => !(isAssignStmt s)) = true
      ∧ defaultRun = Except.ok [Effect.bind "setup", Effect.callSetup setupCall]
      ∧ boundNamesOf [Effect.bind "setup", Effect.callSetup setupCall] = ["setup"] := by
  refine ⟨rfl, rfl, rfl⟩

/-- C8: the `long_description` argument passed to `setup` is exactly the
given single-line sentence, contains no newline, and is distinct from the
short description. -/
theorem C8_long_description :
    setupCall.long_description
        = "zoneinfo is a python program to obtain some information about a DNS zone."
      ∧ Char.ofNat 10 ∉ setupCall.long_description.toList
      ∧ setupCall.long_description ≠ setupCall.description := by
  refine ⟨rfl, by decide, by decide⟩

/-- C9: the author/contact metadata passed to `setup` is fixed: author
"Shumon Huque", author email "shuque@upenn.edu", and the given URL. -/
theorem C9_author_metadata :
    setupCall.author = "Shumon Huque"
      ∧ setupCall.author_email = "shuque@upenn.edu"
      ∧ setupCall.url = "http://www.huque.com/software/zoneinfo/" := by
  refine ⟨rfl, rfl, rfl⟩

/-- C10: the module evaluates in a fixed finite number of steps (two: one per
statement, there being no loop, recursion, or nested block), and whenever the
`setup` call terminates successfully the module terminates having invoked
`setup` exactly once, on `setupCall`. -/
theorem C10_terminates_one_call :
    stepsOfList moduleStmts = 2
      ∧ ∀ (impl : SetupArgs → Except String Unit),
          impl setupCall = Except.ok () →
          ∀ (argv : List String) (env : List (String × String)),
            runModule argv env impl
                = Except.ok [Effect.bind "setup", Effect.callSetup setupCall]
              ∧ setupArgsOf [Effect.bind "setup", Effect.callSetup setupCall]
                  = [setupCall] := by
  refine ⟨rfl, ?_⟩
  intro impl h argv env
  refine ⟨?_, rfl⟩
  simp [runModule, execStmts, moduleStmts, execStmt, h]

/-- C10 witness: with the always-succeeding `setup` oracle, the module
terminates with the expected trace, which records exactly one `setup` call. -/
theorem C10_terminates_one_call_witness :
    runModule [] [] implOk
        = Except.ok [Effect.bind "setup", Effect.callSetup setupCall]
      ∧ setupArgsOf [Effect.bind "setup", Effect.callSetup setupCall]
          = [setupCall] :=
  C10_terminates_one_call.2 implOk rfl [] []

end ZoneinfoSetup
